import Mathlib

/-!
Shallow embedding of the Hi-Tech Institute admin backend
(notice/gallery CRUD pipeline: validation, authorization, persistence,
Cloudinary storage side effects), together with theorems settling the
frozen specification claims.

External collaborators (the jsonwebtoken library, Joi, Mongoose/MongoDB,
the Cloudinary client, the JS runtime) are embedded by their documented
semantics at the exact points the controllers call them; each such point
carries a comment naming the library fact being modelled.  Outcomes of
infrastructure calls (database writes, remote storage calls) are passed
in as explicit parameters so that both the success and the failure path
of every controller can be examined.
-/

/-- HTTP response as observed by the caller: status code and the
`message` field of the JSON envelope. -/
structure HttpResponse where
  status : Nat
  message : String
deriving DecidableEq, Repr

/- ------------------------------------------------------------------ -/
/- Authorization gate (src/src/middlewares/auth.ts, authenticateAdmin) -/
/- ------------------------------------------------------------------ -/

/-- Admin document as stored (fields used by the middleware). -/
structure AdminRecord where
  id : String
  email : String
  name : String
  role : String
  isActive : Bool
deriving DecidableEq, Repr

/-- JWT payload shape (`interface JwtPayload` in auth.ts). -/
structure JwtPayload where
  adminId : String
  email : String
  role : String
deriving DecidableEq, Repr

/-- Errors thrown by `jwt.verify` of the jsonwebtoken library:
a malformed/badly-signed token throws `JsonWebTokenError`, an expired
token throws `TokenExpiredError`. -/
inductive JwtError where
  | invalidToken
  | expiredToken
deriving DecidableEq, Repr

/-- Library fact (jsonwebtoken): `TokenExpiredError` is declared as a
subclass of `JsonWebTokenError`, so `e instanceof jwt.JsonWebTokenError`
is true for both error classes. -/
def instOfJsonWebTokenError : JwtError → Bool
  | .invalidToken => true
  | .expiredToken => true

/-- `e instanceof jwt.TokenExpiredError` holds only for expired tokens. -/
def instOfTokenExpiredError : JwtError → Bool
  | .invalidToken => false
  | .expiredToken => true

/-- Identity context the middleware attaches to the request on success. -/
structure AdminContext where
  adminId : String
  email : String
  name : String
  role : String
deriving DecidableEq, Repr

/-- Result of running the authentication middleware. -/
inductive AuthResult where
  | proceed (ctx : AdminContext)
  | reject (status : Nat) (message : String)
deriving DecidableEq, Repr

/-- The `catch` block of `authenticateAdmin`, in source order: the
`instanceof jwt.JsonWebTokenError` test comes first, the
`instanceof jwt.TokenExpiredError` test second, otherwise 500. -/
def authCatch (e : JwtError) : AuthResult :=
  if instOfJsonWebTokenError e then
    .reject 401 "Access denied. Invalid token."
  else if instOfTokenExpiredError e then
    .reject 401 "Access denied. Token has expired."
  else
    .reject 500 "Internal server error during authentication."

/-- `authenticateAdmin` (src/src/middlewares/auth.ts).  `token` is the
cookie-carried token, `verify` models `jwt.verify` against the secret,
`findAdminById` models `Admin.findById` against the store state current
at this request (the middleware queries the database on every request;
nothing is cached across requests). -/
def authenticateAdmin (token : Option String)
    (verify : String → Except JwtError JwtPayload)
    (findAdminById : String → Option AdminRecord) : AuthResult :=
  match token with
  | none => .reject 401 "Access denied. No token provided."
  | some t =>
    match verify t with
    | .error e => authCatch e
    | .ok decoded =>
      match findAdminById decoded.adminId with
      | none => .reject 401 "Access denied. Admin not found."
      | some admin =>
        if !admin.isActive then
          .reject 401 "Access denied. Admin account is deactivated."
        else
          .proceed ⟨admin.id, admin.email, admin.name, admin.role⟩

/- ------------------------------------------------------------------ -/
/- Validation layer (src/src/utils/validators.ts, Joi schemas)        -/
/- ------------------------------------------------------------------ -/

/-- One Joi rule on a (converted) field value, with the message the
schema attaches to it via `.messages`. -/
structure JoiCheck (A : Type) where
  ok : A → Bool
  msg : String

/-- One field of a Joi object schema.  `presenceMsg` is the
`any.required` message when the field is `.required()` (fields with a
`.default(...)` or `.optional()` produce no error when absent);
`convert` is the coercion Joi applies before the rules (`.trim()` for
the trimmed string fields, identity otherwise); `baseCheck` is a
type-level rule that, when it fails, suppresses the remaining rules of
the field (Joi reports only `string.empty` for an empty string and only
`number.base`/`date.base` for an uncoercible value); `checks` are the
remaining rules, each evaluated independently. -/
structure JoiField (A : Type) where
  presenceMsg : Option String
  convert : A → A
  baseCheck : Option (JoiCheck A)
  checks : List (JoiCheck A)

/-- Errors Joi produces for one field of the input object. -/
def joiFieldErrors {A : Type} (value : Option A) (f : JoiField A) : List String :=
  match value with
  | none => f.presenceMsg.toList
  | some v =>
    let c := f.convert v
    match f.baseCheck with
    | some b =>
      if b.ok c then f.checks.filterMap (fun chk => if chk.ok c then none else some chk.msg)
      else [b.msg]
    | none => f.checks.filterMap (fun chk => if chk.ok c then none else some chk.msg)

/-- Assembling the per-field error lists into the result of
`schema.validate(data, { abortEarly })`: with `abortEarly: true` Joi
stops at the first violation, with `abortEarly: false` (the mode every
helper in validators.ts uses) it returns them all. -/
def joiResult (abortEarly : Bool) (perField : List (List String)) : List String :=
  let all := perField.flatten
  if abortEarly then all.take 1 else all

/-- JS `String.prototype.trim`, as applied by Joi `.trim()` with the
default `convert: true`. -/
def jsTrim (s : String) : String :=
  String.mk (((s.data.dropWhile Char.isWhitespace).reverse.dropWhile Char.isWhitespace).reverse)

/-- A JS number as produced by Joi number coercion of a query value:
either not a number at all, or a finite value (rationals model the
integer/non-integer distinction relevant to `.integer()`). -/
inductive JsNumber where
  | nan
  | fin (q : Rat)
deriving DecidableEq, Repr

def JsNumber.isNumber : JsNumber → Bool
  | .nan => false
  | .fin _ => true

def JsNumber.isIntegral : JsNumber → Bool
  | .nan => false
  | .fin q => q.den == 1

def JsNumber.ge (v : JsNumber) (n : Rat) : Bool :=
  match v with
  | .nan => false
  | .fin q => n ≤ q

def JsNumber.le (v : JsNumber) (n : Rat) : Bool :=
  match v with
  | .nan => false
  | .fin q => q ≤ n

/-- `signInSchema.email`: required, Joi email format (the format
predicate itself is library internals, taken as a parameter). -/
def signInEmailField (emailOk : String → Bool) : JoiField String where
  presenceMsg := some "Email is required"
  convert := id
  baseCheck := some ⟨fun s => !(s == ""), "\"email\" is not allowed to be empty"⟩
  checks := [⟨emailOk, "Please provide a valid email address"⟩]

/-- `signInSchema.password`: required, min 8. -/
def signInPasswordField : JoiField String where
  presenceMsg := some "Password is required"
  convert := id
  baseCheck := some ⟨fun s => !(s == ""), "\"password\" is not allowed to be empty"⟩
  checks := [⟨fun s => decide (8 ≤ s.length), "Password must be at least 8 characters long"⟩]

/-- `noticeSchema.title`: trimmed, required, 3–200 chars. -/
def noticeTitleField : JoiField String where
  presenceMsg := some "Title is required"
  convert := jsTrim
  baseCheck := some ⟨fun s => !(s == ""), "\"title\" is not allowed to be empty"⟩
  checks :=
    [⟨fun s => decide (3 ≤ s.length), "Title must be at least 3 characters long"⟩,
     ⟨fun s => decide (s.length ≤ 200), "Title cannot exceed 200 characters"⟩]

/-- `noticeSchema.description`: trimmed, required, 10–2000 chars. -/
def noticeDescriptionField : JoiField String where
  presenceMsg := some "Description is required"
  convert := jsTrim
  baseCheck := some ⟨fun s => !(s == ""), "\"description\" is not allowed to be empty"⟩
  checks :=
    [⟨fun s => decide (10 ≤ s.length), "Description must be at least 10 characters long"⟩,
     ⟨fun s => decide (s.length ≤ 2000), "Description cannot exceed 2000 characters"⟩]

/-- `noticeSchema.date`: optional `Joi.date()`; `dateOk` models the JS
date coercion accepting the raw value (library internals). -/
def noticeDateField (dateOk : String → Bool) : JoiField String where
  presenceMsg := none
  convert := id
  baseCheck := some ⟨dateOk, "Please provide a valid date"⟩
  checks := []

/-- `adminRegistrationSchema.name`: trimmed, required, 2–50 chars. -/
def regNameField : JoiField String where
  presenceMsg := some "Name is required"
  convert := jsTrim
  baseCheck := some ⟨fun s => !(s == ""), "\"name\" is not allowed to be empty"⟩
  checks :=
    [⟨fun s => decide (2 ≤ s.length), "Name must be at least 2 characters long"⟩,
     ⟨fun s => decide (s.length ≤ 50), "Name cannot exceed 50 characters"⟩]

/-- `adminRegistrationSchema.email`: required, Joi email format. -/
def regEmailField (emailOk : String → Bool) : JoiField String where
  presenceMsg := some "Email is required"
  convert := id
  baseCheck := some ⟨fun s => !(s == ""), "\"email\" is not allowed to be empty"⟩
  checks := [⟨emailOk, "Please provide a valid email address"⟩]

/-- The password pattern of `adminRegistrationSchema`:
`^(?=.*[a-z])(?=.*[A-Z])(?=.*\d)(?=.*[@$!%*?&])[A-Za-z\d@$!%*?&]`.
The four lookaheads require a lowercase letter, an uppercase letter, a
digit and one of the listed symbols somewhere in the string, and the
head of the string must fall in the character class (the pattern is
anchored at the start only). -/
def regPasswordPatternOk (s : String) : Bool :=
  s.data.any Char.isLower && s.data.any Char.isUpper && s.data.any Char.isDigit
    && s.data.any (fun c => ['@', '$', '!', '%', '*', '?', '&'].contains c)
    && (match s.data with
        | [] => false
        | c :: _ =>
          c.isLower || c.isUpper || c.isDigit
            || ['@', '$', '!', '%', '*', '?', '&'].contains c)

/-- `adminRegistrationSchema.password`: required, min 8, pattern. -/
def regPasswordField : JoiField String where
  presenceMsg := some "Password is required"
  convert := id
  baseCheck := some ⟨fun s => !(s == ""), "\"password\" is not allowed to be empty"⟩
  checks :=
    [⟨fun s => decide (8 ≤ s.length), "Password must be at least 8 characters long"⟩,
     ⟨regPasswordPatternOk,
      "Password must contain at least one uppercase letter, one lowercase letter, one digit, and one special character"⟩]

/-- `adminRegistrationSchema.role`: optional with `.default('admin')`,
value restricted by `.valid('admin', 'super_admin')`. -/
def regRoleField : JoiField String where
  presenceMsg := none
  convert := id
  baseCheck := none
  checks := [⟨fun s => s == "admin" || s == "super_admin", "Role must be either admin or super_admin"⟩]

/-- `queryParamsSchema.page`: number, integer, min 1, default 1. -/
def qpPageField : JoiField JsNumber where
  presenceMsg := none
  convert := id
  baseCheck := some ⟨JsNumber.isNumber, "Page must be a number"⟩
  checks :=
    [⟨JsNumber.isIntegral, "Page must be an integer"⟩,
     ⟨fun v => v.ge 1, "Page must be at least 1"⟩]

/-- `queryParamsSchema.limit`: number, integer, 1–100, default 10. -/
def qpLimitField : JoiField JsNumber where
  presenceMsg := none
  convert := id
  baseCheck := some ⟨JsNumber.isNumber, "Limit must be a number"⟩
  checks :=
    [⟨JsNumber.isIntegral, "Limit must be an integer"⟩,
     ⟨fun v => v.ge 1, "Limit must be at least 1"⟩,
     ⟨fun v => v.le 100, "Limit cannot exceed 100"⟩]

/-- `queryParamsSchema.search`: optional trimmed string, max 100. -/
def qpSearchField : JoiField String where
  presenceMsg := none
  convert := jsTrim
  baseCheck := some ⟨fun s => !(s == ""), "\"search\" is not allowed to be empty"⟩
  checks := [⟨fun s => decide (s.length ≤ 100), "Search term cannot exceed 100 characters"⟩]

/-- `validateSignIn` = `signInSchema.validate(data, { abortEarly: false })`. -/
def validateSignIn (emailOk : String → Bool) (email password : Option String) : List String :=
  joiResult false
    [joiFieldErrors email (signInEmailField emailOk),
     joiFieldErrors password signInPasswordField]

/-- `validateNotice` = `noticeSchema.validate(data, { abortEarly: false })`. -/
def validateNotice (dateOk : String → Bool) (title description date : Option String) : List String :=
  joiResult false
    [joiFieldErrors title noticeTitleField,
     joiFieldErrors description noticeDescriptionField,
     joiFieldErrors date (noticeDateField dateOk)]

/-- `validateAdminRegistration` = `adminRegistrationSchema.validate(data, { abortEarly: false })`. -/
def validateAdminRegistration (emailOk : String → Bool)
    (name email password role : Option String) : List String :=
  joiResult false
    [joiFieldErrors name regNameField,
     joiFieldErrors email (regEmailField emailOk),
     joiFieldErrors password regPasswordField,
     joiFieldErrors role regRoleField]

/-- `validateQueryParams` = `queryParamsSchema.validate(data, { abortEarly: false })`. -/
def validateQueryParams (page limit : Option JsNumber) (search : Option String) : List String :=
  joiResult false
    [joiFieldErrors page qpPageField,
     joiFieldErrors limit qpLimitField,
     joiFieldErrors search qpSearchField]

/- ------------------------------------------------------------------ -/
/- Persistence layer: Notice model (galleryRoutes.ts tail holds the   -/
/- mongoose Notice schema with its pre-save hook)                     -/
/- ------------------------------------------------------------------ -/

/-- Attachment subdocument as built by the Cloudinary notice
controller (src/src/controllers/noticeController.ts). -/
structure Attachment where
  filename : String
  originalName : String
  url : String
  publicId : String
  size : Int
  mimeType : String
  format : String
  resourceType : String
  width : Option Int
  height : Option Int
deriving DecidableEq, Repr

/-- Notice document.  Dates and timestamps are epoch milliseconds. -/
structure NoticeRecord where
  id : String
  title : String
  description : String
  date : Int
  attachment : Option Attachment
  createdBy : String
  updatedBy : String
  isActive : Bool
  createdAt : Int
  updatedAt : Int
deriving DecidableEq, Repr

def isHexDigitChar (c : Char) : Bool :=
  c.isDigit || ('a' ≤ c && c ≤ 'f') || ('A' ≤ c && c ≤ 'F')

/-- Mongoose ObjectId casting: a 24-character hex string (or a raw
12-character string) casts; anything else makes `findById` and friends
reject with a `CastError`. -/
def castableObjectId (s : String) : Bool :=
  (s.length == 24 && s.data.all isHexDigitChar) || s.length == 12

/-- The 30-day window of the Notice pre-save hook, in milliseconds. -/
def maxFutureMs : Int := 30 * 24 * 60 * 60 * 1000

/-- `notice.save()`: mongoose document save runs the schema's `pre('save')`
middleware — which rejects a date more than 30 days past `now` — and then
writes.  The per-field validators (title/description bounds) duplicate
the Joi checks the controllers always run first and are omitted here;
`infraFails` injects an infrastructure failure of the write itself. -/
def saveNotice (now : Int) (infraFails : Bool) (n : NoticeRecord)
    (store : List NoticeRecord) : Except String (List NoticeRecord) :=
  if n.date > now + maxFutureMs then
    .error "Notice date cannot be more than 30 days in the future"
  else if infraFails then
    .error "database write failed"
  else
    .ok (store ++ [n])

/-- Outcome of one `cloudinary.uploader.destroy(publicId)` call: it can
reject (infrastructure error), resolve with `result: 'ok'` (the object
was removed) or resolve with `result: 'not found'`. -/
inductive DestroyOutcome where
  | throwErr
  | resOk
  | resNotFound
deriving DecidableEq, Repr

/-- Effect of a destroy call on the set of publicIds held in remote
storage: only a resolved `'ok'` removes the object. -/
def destroyEffect (cloud : List String) (pid : String) : DestroyOutcome → List String
  | .resOk => cloud.erase pid
  | _ => cloud

/-- `deleteFromCloudinary` (the config/cloudinary helper appended to
src/src/config/environment.ts): wraps destroy in try/catch, returns
`result.result === 'ok'` and returns `false` when the call rejects —
this helper never throws. -/
def deleteFromCloudinary : DestroyOutcome → Bool
  | .resOk => true
  | .resNotFound => false
  | .throwErr => false

/- ------------------------------------------------------------------ -/
/- Notice controller (src/src/controllers/noticeController.ts)        -/
/- ------------------------------------------------------------------ -/

/-- Uploaded file as delivered by multer memory storage. -/
structure FileUpload where
  originalname : String
  size : Int
  mimetype : String
deriving DecidableEq, Repr

/-- What `uploadToCloudinary` resolves with on success. -/
structure CloudUploadResult where
  url : String
  publicId : String
  format : String
  resourceType : String
  width : Option Int
  height : Option Int
deriving DecidableEq, Repr

/-- Result of a create request: the HTTP response, the notice store
afterwards, and the set of publicIds in remote storage afterwards. -/
structure CreateOutcome where
  response : HttpResponse
  store : List NoticeRecord
  cloud : List String
deriving DecidableEq, Repr

/-- `NoticeController.createNotice` (Cloudinary variant, the controller
wired into src/src/routes/noticeRoutes.ts).  `dateParse` models the JS
`new Date(...)` coercion (shared with Joi date validation);
`uploadResult` is the outcome of the `uploadToCloudinary` call (`none`
models its rejection, with nothing stored remotely); `persistFails`
injects an infrastructure failure of `notice.save()`. -/
def createNotice (dateParse : String → Option Int) (now : Int) (adminId : String)
    (title description date : Option String) (file : Option FileUpload)
    (uploadResult : Option CloudUploadResult) (persistFails : Bool)
    (newId : String) (store : List NoticeRecord) (cloud : List String) : CreateOutcome :=
  if validateNotice (fun s => (dateParse s).isSome) title description date ≠ [] then
    ⟨⟨400, "Validation error"⟩, store, cloud⟩
  else
    match title, description with
    | some t0, some d0 =>
      -- Joi returns the converted value: trimmed strings, coerced date
      let t := jsTrim t0
      let d := jsTrim d0
      -- `date: date ? new Date(date) : new Date()`; the parse cannot fail
      -- here since Joi date validation passed
      let dateVal : Int := match date with
        | some s => (dateParse s).getD now
        | none => now
      match file with
      | none =>
        let n : NoticeRecord := ⟨newId, t, d, dateVal, none, adminId, adminId, true, now, now⟩
        match saveNotice now persistFails n store with
        | .error _ => ⟨⟨500, "Internal server error while creating notice"⟩, store, cloud⟩
        | .ok store2 => ⟨⟨201, "Notice created successfully"⟩, store2, cloud⟩
      | some f =>
        match uploadResult with
        | none => ⟨⟨500, "Failed to upload file to cloud storage"⟩, store, cloud⟩
        | some r =>
          -- the upload succeeded: the object r.publicId now exists remotely
          let cloud2 := r.publicId :: cloud
          let att : Attachment :=
            ⟨f.originalname, f.originalname, r.url, r.publicId, f.size, f.mimetype,
             r.format, r.resourceType, r.width, r.height⟩
          let n : NoticeRecord := ⟨newId, t, d, dateVal, some att, adminId, adminId, true, now, now⟩
          match saveNotice now persistFails n store with
          | .error _ =>
            -- the catch block logs and replies 500; it performs no
            -- compensating delete, so cloud2 still holds r.publicId
            ⟨⟨500, "Internal server error while creating notice"⟩, store, cloud2⟩
          | .ok store2 => ⟨⟨201, "Notice created successfully"⟩, store2, cloud2⟩
    | _, _ => ⟨⟨400, "Validation error"⟩, store, cloud⟩

/-- Uploaded file as delivered by multer disk storage (already written
to its `path` under uploads/ before the controller runs). -/
structure LocalFile where
  filename : String
  originalname : String
  path : String
  size : Int
  mimetype : String
deriving DecidableEq, Repr

/-- `deleteFile` (fileHelper): removes the path from local disk if
present; errors are swallowed. -/
def deleteFile (path : String) (disk : List String) : List String :=
  disk.erase path

/-- The earlier local-disk variant of `NoticeController.createNotice`
kept in the repository (src/unnamed/part_002): its catch block runs
`await deleteFile(req.file.path)` when the database operation fails, so
the just-stored file does not survive a failed create.  The third
component is the local disk contents afterwards. -/
def createNoticeLocalDisk (dateParse : String → Option Int) (now : Int) (adminId : String)
    (title description date : Option String) (file : Option LocalFile)
    (persistFails : Bool) (newId : String) (store : List NoticeRecord)
    (disk : List String) : HttpResponse × List NoticeRecord × List String :=
  if validateNotice (fun s => (dateParse s).isSome) title description date ≠ [] then
    -- clean up the uploaded file if validation fails
    (⟨400, "Validation error"⟩, store,
      match file with | some f => deleteFile f.path disk | none => disk)
  else
    match title, description with
    | some t0, some d0 =>
      let t := jsTrim t0
      let d := jsTrim d0
      let dateVal : Int := match date with
        | some s => (dateParse s).getD now
        | none => now
      let n : NoticeRecord := ⟨newId, t, d, dateVal, none, adminId, adminId, true, now, now⟩
      match saveNotice now persistFails n store with
      | .error _ =>
        -- clean up the uploaded file if the database operation fails
        (⟨500, "Internal server error while creating notice"⟩, store,
          match file with | some f => deleteFile f.path disk | none => disk)
      | .ok store2 => (⟨201, "Notice created successfully"⟩, store2, disk)
    | _, _ =>
      (⟨400, "Validation error"⟩, store,
        match file with | some f => deleteFile f.path disk | none => disk)

/-- `NoticeController.getNoticeById`: the controller catches every
error itself, so a `CastError` from a malformed id surfaces as its own
500, never reaching the global errorHandler's CastError→400 mapping. -/
def getNoticeById (id : String) (store : List NoticeRecord) : HttpResponse :=
  if !(castableObjectId id) then
    ⟨500, "Internal server error while fetching notice"⟩
  else
    match store.find? (fun n => n.id == id) with
    | none => ⟨404, "Notice not found"⟩
    | some _ => ⟨200, "Notice retrieved successfully"⟩

/-- JS `parseInt(x) || d`: `none` models NaN; 0 is falsy, so it also
falls back to the default. -/
def jsOrDefault (v : Option Int) (d : Int) : Int :=
  match v with
  | none => d
  | some x => if x = 0 then d else x

/-- `Math.ceil(a / b)` on integer operands (exact rational division then
ceiling); `b = 0` is unreachable in the controller because 0 is falsy. -/
def mathCeilDiv (a b : Int) : Int := -((-a).fdiv b)

/-- Sort key of `.sort({ date: -1, createdAt: -1 })`: by date
descending, then creation time descending. -/
def noticeBeforeEq (a b : NoticeRecord) : Bool :=
  (a.date > b.date) || (a.date == b.date && a.createdAt ≥ b.createdAt)

/-- The sorted view the list query returns (a stable sort on the key). -/
def sortNotices (store : List NoticeRecord) : List NoticeRecord :=
  List.insertionSort (fun a b => noticeBeforeEq a b = true) store

structure PaginationEnvelope where
  currentPage : Int
  totalPages : Int
  totalItems : Int
  itemsPerPage : Int
  hasNextPage : Bool
  hasPrevPage : Bool
deriving DecidableEq, Repr

structure NoticesListOutcome where
  response : HttpResponse
  notices : List NoticeRecord
  pagination : Option PaginationEnvelope
deriving DecidableEq, Repr

/-- `NoticeController.getAllNotices`: page and limit come straight from
`parseInt(...) || default` on the raw query values (`validateQueryParams`
is never called on this path), then `find().sort(...).skip(skip).limit(limit)`
plus `countDocuments` build the envelope. -/
def getAllNotices (qpage qlimit : Option Int) (store : List NoticeRecord) : NoticesListOutcome :=
  let page := jsOrDefault qpage 1
  let limit := jsOrDefault qlimit 10
  let skip := (page - 1) * limit
  if skip < 0 then
    -- MongoDB rejects a negative skip; the catch block replies 500
    ⟨⟨500, "Internal server error while fetching notices"⟩, [], none⟩
  else
    -- cursor.limit with a negative argument behaves as its absolute value
    let items := ((sortNotices store).drop skip.toNat).take limit.natAbs
    let total : Int := store.length
    let totalPages := mathCeilDiv total limit
    ⟨⟨200, "Notices retrieved successfully"⟩, items,
      some ⟨page, totalPages, total, limit, decide (page < totalPages), decide (page > 1)⟩⟩

/-- Apply a function to the record with the given id (ids are unique in
a store built through the orchestrator). -/
def mapById (id : String) (f : NoticeRecord → NoticeRecord)
    (store : List NoticeRecord) : List NoticeRecord :=
  store.map (fun n => if n.id == id then f n else n)

/-- `NoticeController.updateNotice` (Cloudinary variant).  `destroyOld`
is the outcome of the destroy call on the old attachment (only consumed
when a new file is present and the existing notice has an attachment);
`uploadResult` is the outcome of the new upload; `persistFails` injects
an infrastructure failure of `Notice.findByIdAndUpdate`.  Mongoose
fact: `findByIdAndUpdate` is query middleware — the schema's
`pre('save')` document hook (the 30-day date bound) does not run on it,
and `runValidators: true` re-runs only the per-field validators (the
title/description bounds already enforced by Joi; the schema's `date`
field has a `required` validator and a default but no upper bound). -/
def updateNotice (dateParse : String → Option Int) (now : Int) (adminId : String)
    (id : String) (title description date : Option String) (file : Option FileUpload)
    (destroyOld : DestroyOutcome) (uploadResult : Option CloudUploadResult)
    (persistFails : Bool) (store : List NoticeRecord) (cloud : List String) :
    HttpResponse × List NoticeRecord × List String :=
  if !(castableObjectId id) then
    -- `findById` rejects with a CastError; this controller catches its
    -- own errors, so the reply is its 500, not the errorHandler's 400
    (⟨500, "Internal server error while updating notice"⟩, store, cloud)
  else
    match store.find? (fun n => n.id == id) with
    | none => (⟨404, "Notice not found"⟩, store, cloud)
    | some existing =>
      if validateNotice (fun s => (dateParse s).isSome) title description date ≠ [] then
        (⟨400, "Validation error"⟩, store, cloud)
      else
        match title, description with
        | some t0, some d0 =>
          let t := jsTrim t0
          let d := jsTrim d0
          -- `date: date ? new Date(date) : existingNotice.date`
          let dateVal : Int := match date with
            | some s => (dateParse s).getD now
            | none => existing.date
          let applyUpd : Option Attachment → NoticeRecord → NoticeRecord := fun att n =>
            { n with title := t, description := d, date := dateVal,
                     updatedBy := adminId, updatedAt := now,
                     attachment := match att with
                       | some a => some a
                       | none => n.attachment }
          match file with
          | none =>
            if persistFails then
              (⟨500, "Internal server error while updating notice"⟩, store, cloud)
            else
              (⟨200, "Notice updated successfully"⟩, mapById id (applyUpd none) store, cloud)
          | some f =>
            -- delete the old attachment first; deleteFromCloudinary
            -- swallows rejections, so execution always continues
            let cloudAfterOld := match existing.attachment with
              | some oldAtt => destroyEffect cloud oldAtt.publicId destroyOld
              | none => cloud
            match uploadResult with
            | none => (⟨500, "Failed to upload file to cloud storage"⟩, store, cloudAfterOld)
            | some r =>
              let cloud2 := r.publicId :: cloudAfterOld
              let att : Attachment :=
                ⟨f.originalname, f.originalname, r.url, r.publicId, f.size, f.mimetype,
                 r.format, r.resourceType, r.width, r.height⟩
              if persistFails then
                (⟨500, "Internal server error while updating notice"⟩, store, cloud2)
              else
                (⟨200, "Notice updated successfully"⟩, mapById id (applyUpd (some att)) store, cloud2)
        | _, _ => (⟨400, "Validation error"⟩, store, cloud)

/-- `NoticeController.deleteNotice`: the destroy call on the attachment
sits in its own try/catch whose comment reads "Continue with notice
deletion even if Cloudinary deletion fails" (and `deleteFromCloudinary`
never throws anyway), after which `findByIdAndDelete` removes the
record and the reply is 200. -/
def deleteNotice (id : String) (destroy : DestroyOutcome)
    (store : List NoticeRecord) (cloud : List String) :
    HttpResponse × List NoticeRecord × List String :=
  if !(castableObjectId id) then
    (⟨500, "Internal server error while deleting notice"⟩, store, cloud)
  else
    match store.find? (fun n => n.id == id) with
    | none => (⟨404, "Notice not found"⟩, store, cloud)
    | some n =>
      let cloud2 := match n.attachment with
        | some att => destroyEffect cloud att.publicId destroy
        | none => cloud
      (⟨200, "Notice deleted successfully"⟩,
        store.filter (fun r => !(r.id == id)), cloud2)

/- ------------------------------------------------------------------ -/
/- Gallery controller (src/src/controllers/galleryController.ts,      -/
/- second, current version; model in src/unnamed/part_004)            -/
/- ------------------------------------------------------------------ -/

/-- Embedded image reference of a gallery record (`publicId` is not
required by the schema, hence optional). -/
structure ImageRef where
  url : String
  publicId : Option String
  format : Option String
  size : Option Int
  width : Option Int
  height : Option Int
deriving DecidableEq, Repr

structure GalleryRecord where
  id : String
  title : String
  description : Option String
  image : ImageRef
  category : String
  date : Int
deriving DecidableEq, Repr

/-- The category enum of the gallery schema. -/
def galleryCategories : List String :=
  ["College Events", "Workshops & Seminars", "Campus Tour",
   "Technical Competitions", "Sports & Cultural"]

/-- `deleteGalleryImage`: unlike the notice controller, the
`await cloudinaryUtils.delete(publicId)` call is not guarded — the raw
`cloudinary.uploader.destroy` promise is awaited inside
`express-async-handler`, so a rejection aborts the handler before
`image.deleteOne()` and the global errorHandler replies 500 (the
message is the storage client's own and is not asserted on here). -/
def deleteGalleryImage (id : String) (destroy : DestroyOutcome)
    (store : List GalleryRecord) (cloud : List String) :
    HttpResponse × List GalleryRecord × List String :=
  if !(castableObjectId id) then
    -- the CastError reaches the errorHandler, which maps it to 400
    (⟨400, "Invalid ID format"⟩, store, cloud)
  else
    match store.find? (fun g => g.id == id) with
    | none =>
      -- `res.status(404); throw new Error('Image not found')`: the Error has
      -- no statusCode field, so the errorHandler answers with its 500 default
      (⟨500, "Image not found"⟩, store, cloud)
    | some g =>
      match g.image.publicId with
      | some pid =>
        match destroy with
        | .throwErr =>
          (⟨500, "Internal Server Error"⟩, store, destroyEffect cloud pid .throwErr)
        | o =>
          (⟨200, "Image deleted successfully"⟩,
            store.filter (fun r => !(r.id == id)), destroyEffect cloud pid o)
      | none =>
        (⟨200, "Image deleted successfully"⟩,
          store.filter (fun r => !(r.id == id)), cloud)

/-- JS `x || y` on a required string field of a JSON body: the falsy
string values are exactly a missing field and the empty string, both of
which select the fallback. -/
def jsStringOr (v : Option String) (dflt : String) : String :=
  match v with
  | some s => if s == "" then dflt else s
  | none => dflt

/-- JS `x || y` where the fallback is an optional stored string. -/
def jsStringOrKeep (v : Option String) (dflt : Option String) : Option String :=
  match v with
  | some s => if s == "" then dflt else some s
  | none => dflt

/-- `updateGalleryImage`, given the record found for the id: the string
fields are folded in with `x || image.x` (for fields of a JSON body the
falsy string values are exactly a missing field and the empty string),
the date only inside `if (date)` after a parse check, the image
reference never; then `image.save()` re-runs the schema validators
(title required, category in the enum).  The `Invalid date format`
throw carries no statusCode, so the errorHandler replies 500 and the
stored record is unchanged. -/
def updateGalleryImage (parseDate : String → Option Int) (img : GalleryRecord)
    (title description category date : Option String) :
    Except HttpResponse GalleryRecord :=
  let t := jsStringOr title img.title
  let d := jsStringOrKeep description img.description
  let c := jsStringOr category img.category
  let withDate : Except HttpResponse GalleryRecord :=
    match date with
    | some s =>
      if s == "" then .ok { img with title := t, description := d, category := c }
      else
        match parseDate s with
        | none => .error ⟨500, "Invalid date format"⟩
        | some ts => .ok { img with title := t, description := d, category := c, date := ts }
    | none => .ok { img with title := t, description := d, category := c }
  match withDate with
  | .error e => .error e
  | .ok r =>
    if r.title == "" || !(galleryCategories.contains r.category) then
      .error ⟨400, "Validation Error"⟩
    else
      .ok r

/-- A stored notice without attachment (id is a valid 24-hex ObjectId). -/
def noticeFixture : NoticeRecord :=
  ⟨"507f1f77bcf86cd799439011", "Sports Day", "Annual sports day notice",
   0, none, "a1", "a1", true, 0, 0⟩

/-- A stored notice whose attachment lives at publicId p1. -/
def noticeWithAttachment : NoticeRecord :=
  ⟨"507f1f77bcf86cd799439012", "Sports Day", "Annual sports day notice",
   0, some ⟨"flyer.pdf", "flyer.pdf", "https://cdn/notices/p1", "p1", 1000,
            "application/pdf", "pdf", "raw", none, none⟩,
   "a1", "a1", true, 0, 0⟩

/-- A stored gallery record whose image lives at publicId p9. -/
def galleryFixture : GalleryRecord :=
  ⟨"507f1f77bcf86cd799439011", "Campus", some "Main building",
   ⟨"https://cdn/gallery/p9", some "p9", none, none, none, none⟩,
   "College Events", 0⟩

/-- 25 stored notices with pairwise distinct effective dates. -/
def c9Store : List NoticeRecord :=
  (List.range 25).map (fun i =>
    ⟨toString i, "Title ok", "A long enough description", (i : Int), none,
     "a1", "a1", true, (i : Int), (i : Int)⟩)

/- ------------------------------------------------------------------ -/
/- Theorems settling the claims                                       -/
/- ------------------------------------------------------------------ -/

/-- C5: a request with a well-formed but expired token is rejected with
status 401, but with the invalid-token message, not the expired-token
message: because `TokenExpiredError` extends `JsonWebTokenError`, the
first `instanceof` test in the catch block captures it and the dedicated
expired-token branch is unreachable. -/
theorem expired_token_gets_invalid_token_message :
    authenticateAdmin (some "expired.jwt.token")
      (fun _ => .error .expiredToken) (fun _ => none)
      = .reject 401 "Access denied. Invalid token." := by
  rfl

/-- C6: whenever the token is valid and unexpired but the admin record
resolved from the current store is inactive, the gate rejects with 401
and the deactivation message.  The store lookup is a parameter of every
run, so a deactivated admin is rejected on the very next call. -/
theorem inactive_admin_rejected (token : String)
    (verify : String → Except JwtError JwtPayload)
    (findAdminById : String → Option AdminRecord)
    (payload : JwtPayload) (admin : AdminRecord)
    (hverify : verify token = .ok payload)
    (hfound : findAdminById payload.adminId = some admin)
    (hinactive : admin.isActive = false) :
    authenticateAdmin (some token) verify findAdminById
      = .reject 401 "Access denied. Admin account is deactivated." := by
  simp [authenticateAdmin, hverify, hfound, hinactive]

/-- Witness for C6 at a concrete deactivated admin. -/
theorem inactive_admin_rejected_witness :
    authenticateAdmin (some "tok")
      (fun _ => .ok ⟨"a1", "a@b.c", "admin"⟩)
      (fun _ => some ⟨"a1", "a@b.c", "Ann", "admin", false⟩)
      = .reject 401 "Access denied. Admin account is deactivated." :=
  inactive_admin_rejected "tok" _ _ ⟨"a1", "a@b.c", "admin"⟩
    ⟨"a1", "a@b.c", "Ann", "admin", false⟩ rfl rfl rfl

/-- C3: each recognized validator (sign-in, notice, admin registration,
query params) runs to completion: for every raw input, every message of
every violated field constraint of every field appears in the returned
list — not only the first one — because all helpers validate with
`abortEarly: false`.  The validators are pure functions of their input
(the embedding returns a fresh error list; Joi `validate` does not
mutate its argument). -/
theorem validators_collect_all_violations :
    (∀ (emailOk : String → Bool) (e p : Option String) (m : String),
      (m ∈ joiFieldErrors e (signInEmailField emailOk)
        ∨ m ∈ joiFieldErrors p signInPasswordField) →
      m ∈ validateSignIn emailOk e p)
    ∧ (∀ (dateOk : String → Bool) (t d dt : Option String) (m : String),
      (m ∈ joiFieldErrors t noticeTitleField
        ∨ m ∈ joiFieldErrors d noticeDescriptionField
        ∨ m ∈ joiFieldErrors dt (noticeDateField dateOk)) →
      m ∈ validateNotice dateOk t d dt)
    ∧ (∀ (emailOk : String → Bool) (n e p r : Option String) (m : String),
      (m ∈ joiFieldErrors n regNameField
        ∨ m ∈ joiFieldErrors e (regEmailField emailOk)
        ∨ m ∈ joiFieldErrors p regPasswordField
        ∨ m ∈ joiFieldErrors r regRoleField) →
      m ∈ validateAdminRegistration emailOk n e p r)
    ∧ (∀ (pg lim : Option JsNumber) (srch : Option String) (m : String),
      (m ∈ joiFieldErrors pg qpPageField
        ∨ m ∈ joiFieldErrors lim qpLimitField
        ∨ m ∈ joiFieldErrors srch qpSearchField) →
      m ∈ validateQueryParams pg lim srch) := by
  have key : ∀ (perField : List (List String)) (l : List String) (m : String),
      l ∈ perField → m ∈ l → m ∈ joiResult false perField := by
    intro perField l m hl hm
    simp only [joiResult, Bool.false_eq_true, if_false, List.mem_flatten]
    exact ⟨l, hl, hm⟩
  refine ⟨?_, ?_, ?_, ?_⟩
  · intro emailOk e p m h
    rcases h with h | h
    · exact key _ _ _ (by simp [validateSignIn]) h
    · exact key _ _ _ (by simp) h
  · intro dateOk t d dt m h
    rcases h with h | h | h
    · exact key _ _ _ (by simp) h
    · exact key _ _ _ (by simp) h
    · exact key _ _ _ (by simp) h
  · intro emailOk n e p r m h
    rcases h with h | h | h | h
    · exact key _ _ _ (by simp) h
    · exact key _ _ _ (by simp) h
    · exact key _ _ _ (by simp) h
    · exact key _ _ _ (by simp) h
  · intro pg lim srch m h
    rcases h with h | h | h
    · exact key _ _ _ (by simp) h
    · exact key _ _ _ (by simp) h
    · exact key _ _ _ (by simp) h

/-- Witness for C3: an input violating the title minimum and the
description minimum at once yields both messages in one validation run. -/
theorem validators_collect_all_violations_witness :
    "Title must be at least 3 characters long"
        ∈ validateNotice (fun _ => true) (some "ab") (some "short") none
    ∧ "Description must be at least 10 characters long"
        ∈ validateNotice (fun _ => true) (some "ab") (some "short") none :=
  ⟨validators_collect_all_violations.2.1 (fun _ => true) (some "ab") (some "short") none
      _ (Or.inl (by decide)),
   validators_collect_all_violations.2.1 (fun _ => true) (some "ab") (some "short") none
      _ (Or.inr (Or.inl (by decide)))⟩

/-- C1: evaluation of the live (Cloudinary) `createNotice` at the
failing input — a valid body with a file whose upload succeeded (object
p1 stored remotely) and whose subsequent `notice.save()` failed.  The
response is the 500, no record is persisted, and p1 is STILL in remote
storage: the catch block performs no compensating delete, so the orphan
survives, contradicting the claim (the repository's own earlier
local-disk variant of this controller deletes the stored file in the
same situation, which that variant's comment states as the intent). -/
theorem create_persist_failure_leaves_orphan :
    createNotice (fun _ => none) 0 "a1" (some "Sports Day")
      (some "Annual sports day notice") none
      (some ⟨"flyer.pdf", 1000, "application/pdf"⟩)
      (some ⟨"https://cdn/notices/p1", "p1", "pdf", "raw", none, none⟩)
      true "n1" [] []
      = ⟨⟨500, "Internal server error while creating notice"⟩, [], ["p1"]⟩ := by
  decide

/-- The earlier local-disk variant kept in the repository does perform
the cleanup in the same situation: after a persistence failure the
just-stored file is gone from disk. -/
theorem local_disk_create_cleanup_on_persist_failure :
    createNoticeLocalDisk (fun _ => none) 0 "a1" (some "Sports Day")
      (some "Annual sports day notice") none
      (some ⟨"f.pdf", "f.pdf", "uploads/f.pdf", 1000, "application/pdf"⟩)
      true "n1" [] ["uploads/f.pdf"]
      = (⟨500, "Internal server error while creating notice"⟩, [], []) := by
  decide

/-- C2 counterexample: a delete of an existing gallery record whose
storage deletion rejects replies 500 and leaves the record in the
store — the storage failure does block the record's deletion, refuting
the claim for the gallery path. -/
theorem gallery_delete_storage_failure_blocks_cx :
    (deleteGalleryImage "507f1f77bcf86cd799439011" .throwErr [galleryFixture] ["p9"]).1.status = 500
    ∧ (deleteGalleryImage "507f1f77bcf86cd799439011" .throwErr [galleryFixture] ["p9"]).2.1
        = [galleryFixture] := by
  decide

/-- C2 as amended: on the notice path a storage-deletion failure never
blocks — the record is deleted and the reply is 200 whatever the
destroy outcome; on the gallery path the unguarded awaited destroy
means a rejection aborts with 500 and the record survives, while a
resolved destroy (even `not found`) lets the deletion proceed. -/
theorem record_deletion_vs_storage_failure :
    (∀ (id : String) (destroy : DestroyOutcome) (store : List NoticeRecord)
        (cloud : List String) (n : NoticeRecord),
      castableObjectId id = true → store.find? (fun r => r.id == id) = some n →
      (deleteNotice id destroy store cloud).1 = ⟨200, "Notice deleted successfully"⟩
      ∧ (deleteNotice id destroy store cloud).2.1 = store.filter (fun r => !(r.id == id)))
    ∧ (∀ (id : String) (store : List GalleryRecord) (cloud : List String)
        (g : GalleryRecord) (pid : String),
      castableObjectId id = true → store.find? (fun r => r.id == id) = some g →
      g.image.publicId = some pid →
      (deleteGalleryImage id .throwErr store cloud).1.status = 500
      ∧ (deleteGalleryImage id .throwErr store cloud).2.1 = store)
    ∧ (∀ (id : String) (destroy : DestroyOutcome) (store : List GalleryRecord)
        (cloud : List String) (g : GalleryRecord),
      castableObjectId id = true → store.find? (fun r => r.id == id) = some g →
      destroy ≠ .throwErr →
      (deleteGalleryImage id destroy store cloud).1 = ⟨200, "Image deleted successfully"⟩
      ∧ (deleteGalleryImage id destroy store cloud).2.1 = store.filter (fun r => !(r.id == id))) := by
  refine ⟨?_, ?_, ?_⟩
  · intro id destroy store cloud n hcast hfind
    constructor <;> simp [deleteNotice, hcast, hfind]
  · intro id store cloud g pid hcast hfind hpid
    constructor <;> simp [deleteGalleryImage, hcast, hfind, hpid]
  · intro id destroy store cloud g hcast hfind hdestroy
    cases hpid : g.image.publicId with
    | none => constructor <;> simp [deleteGalleryImage, hcast, hfind, hpid]
    | some pid =>
      cases destroy with
      | throwErr => exact absurd rfl hdestroy
      | resOk => constructor <;> simp [deleteGalleryImage, hcast, hfind, hpid]
      | resNotFound => constructor <;> simp [deleteGalleryImage, hcast, hfind, hpid]

/-- Witness for C2 (amended) at concrete stores: a notice whose destroy
rejects is still deleted with a 200, and the gallery failure case at
its concrete input. -/
theorem record_deletion_vs_storage_failure_witness :
    ((deleteNotice "507f1f77bcf86cd799439012" .throwErr [noticeWithAttachment] ["p1"]).1
        = ⟨200, "Notice deleted successfully"⟩
      ∧ (deleteNotice "507f1f77bcf86cd799439012" .throwErr [noticeWithAttachment] ["p1"]).2.1
        = [noticeWithAttachment].filter (fun r => !(r.id == "507f1f77bcf86cd799439012")))
    ∧ ((deleteGalleryImage "507f1f77bcf86cd799439011" .throwErr [galleryFixture] ["p9"]).1.status = 500
      ∧ (deleteGalleryImage "507f1f77bcf86cd799439011" .throwErr [galleryFixture] ["p9"]).2.1
        = [galleryFixture]) :=
  ⟨record_deletion_vs_storage_failure.1 "507f1f77bcf86cd799439012" .throwErr
      [noticeWithAttachment] ["p1"] noticeWithAttachment (by decide) (by decide),
   record_deletion_vs_storage_failure.2.1 "507f1f77bcf86cd799439011"
      [galleryFixture] ["p9"] galleryFixture "p9" (by decide) (by decide) (by decide)⟩

/-- C7 counterexample: a single-notice read with the malformed id "abc"
replies 500, not the claimed 400: `findById` rejects with a CastError
and the controller's own catch block maps every error to its generic
500, so the errorHandler's CastError→400 mapping is never reached. -/
theorem malformed_id_read_returns_500_cx :
    getNoticeById "abc" [] = ⟨500, "Internal server error while fetching notice"⟩
    ∧ (getNoticeById "abc" []).status ≠ 400 := by
  decide

/-- C7 as amended: a malformed id yields the controller's 500 (the
lookup indeed never reaches storage, but the cast error is swallowed by
the controller's own catch, not mapped to 400); a well-formed id absent
from the store yields 404; a present one 200. -/
theorem single_notice_read_status_partition :
    (∀ (id : String) (store : List NoticeRecord), castableObjectId id = false →
      getNoticeById id store = ⟨500, "Internal server error while fetching notice"⟩)
    ∧ (∀ (id : String) (store : List NoticeRecord), castableObjectId id = true →
      store.find? (fun n => n.id == id) = none →
      getNoticeById id store = ⟨404, "Notice not found"⟩)
    ∧ (∀ (id : String) (store : List NoticeRecord) (n : NoticeRecord),
      castableObjectId id = true → store.find? (fun n => n.id == id) = some n →
      getNoticeById id store = ⟨200, "Notice retrieved successfully"⟩) := by
  refine ⟨?_, ?_, ?_⟩
  · intro id store hcast
    simp [getNoticeById, hcast]
  · intro id store hcast hfind
    simp [getNoticeById, hcast, hfind]
  · intro id store n hcast hfind
    simp [getNoticeById, hcast, hfind]

/-- Witness for C7 (amended) at concrete ids and stores. -/
theorem single_notice_read_status_partition_witness :
    getNoticeById "abc" [noticeFixture] = ⟨500, "Internal server error while fetching notice"⟩
    ∧ getNoticeById "507f1f77bcf86cd799439099" [noticeFixture] = ⟨404, "Notice not found"⟩
    ∧ getNoticeById "507f1f77bcf86cd799439011" [noticeFixture] = ⟨200, "Notice retrieved successfully"⟩ :=
  ⟨single_notice_read_status_partition.1 "abc" [noticeFixture] (by decide),
   single_notice_read_status_partition.2.1 "507f1f77bcf86cd799439099" [noticeFixture]
      (by decide) (by decide),
   single_notice_read_status_partition.2.2 "507f1f77bcf86cd799439011" [noticeFixture]
      noticeFixture (by decide) (by decide)⟩

set_option maxRecDepth 20000 in
/-- C8 counterexample: a notices list request with limit=150 against a
store of 150 records returns 150 items with a 200 — more than 100 in a
single request, because `getAllNotices` derives page and limit straight
from `parseInt(...) || default` and never calls `validateQueryParams`
(which nothing in the repository invokes). -/
theorem list_request_can_exceed_100_items_cx :
    (getAllNotices none (some 150) (List.replicate 150 noticeFixture)).response.status = 200
    ∧ (getAllNotices none (some 150) (List.replicate 150 noticeFixture)).notices.length = 150 := by
  decide

/-- C8 as amended: page and limit are the raw parsed query integers
with `|| 1` and `|| 10` fallbacks (so only the default parts of the
claim hold); no bound of 100 — or any other constraint of
`queryParamsSchema` — is applied, so a single request returns as many
items as the limit asks for. -/
theorem list_pagination_direct_parse :
    (∀ store : List NoticeRecord,
      ((getAllNotices none none store).pagination).map
          (fun p => (p.currentPage, p.itemsPerPage)) = some (1, 10))
    ∧ (∀ (k : Nat) (n : NoticeRecord), 0 < k →
      (getAllNotices (some 1) (some ((k : Nat) : Int)) (List.replicate k n)).notices.length = k) := by
  constructor
  · intro store
    simp [getAllNotices, jsOrDefault]
  · intro k n hk
    have hkz : ((k : Nat) : Int) ≠ 0 := Int.natCast_ne_zero.mpr hk.ne'
    have hlen : (sortNotices (List.replicate k n)).length = k := by
      have hperm := List.perm_insertionSort
        (fun a b => noticeBeforeEq a b = true) (List.replicate k n)
      simp only [sortNotices, hperm.length_eq, List.length_replicate]
    simp [getAllNotices, jsOrDefault, hkz, hlen]

/-- Witness for C8 (amended): the defaults on an empty query, and a
single request returning 150 items. -/
theorem list_pagination_direct_parse_witness :
    ((getAllNotices none none ([] : List NoticeRecord)).pagination).map
        (fun p => (p.currentPage, p.itemsPerPage)) = some (1, 10)
    ∧ (getAllNotices (some 1) (some ((150 : Nat) : Int))
        (List.replicate 150 noticeFixture)).notices.length = 150 :=
  ⟨list_pagination_direct_parse.1 [],
   list_pagination_direct_parse.2 150 noticeFixture (by decide)⟩

/-- C9: on a store of 25 records, page=2 and limit=10 return exactly
the 10 items past the first 10 of the sorted view, and the envelope is
totalPages=3 (the ceiling of 25/10), hasNextPage (2 < 3), hasPrevPage
(2 > 1). -/
theorem pagination_envelope_25_records :
    (getAllNotices (some 2) (some 10) c9Store).notices.length = 10
    ∧ (getAllNotices (some 2) (some 10) c9Store).notices
        = ((sortNotices c9Store).drop 10).take 10
    ∧ (getAllNotices (some 2) (some 10) c9Store).pagination
        = some ⟨2, 3, 25, 10, true, true⟩
    ∧ mathCeilDiv 25 10 = 3 := by
  decide

/-- A falsy input (`undefined` or the empty string) selects the stored
fallback in `x || y`. -/
theorem jsStringOr_falsy (v : Option String) (d : String)
    (h : v = none ∨ v = some "") : jsStringOr v d = d := by
  rcases h with h | h <;> subst h <;> simp [jsStringOr]

theorem jsStringOrKeep_falsy (v : Option String) (d : Option String)
    (h : v = none ∨ v = some "") : jsStringOrKeep v d = d := by
  rcases h with h | h <;> subst h <;> simp [jsStringOrKeep]

/-- `x || y` can only produce the empty string if the stored value
already was the empty string. -/
theorem jsStringOrKeep_empty (v : Option String) (d : Option String)
    (h : jsStringOrKeep v d = some "") : d = some "" := by
  rcases v with _ | s
  · simpa [jsStringOrKeep] using h
  · by_cases hs : s == ""
    · simpa [jsStringOrKeep, hs] using h
    · simp [jsStringOrKeep, hs] at h
      subst h
      simp at hs

/-- C10: in the gallery update of an existing record, a title,
description or category supplied as a falsy value (absent or the empty
string) leaves the stored field unchanged; the image reference is
unchanged on every successful update, a request without a date leaves
the date unchanged, a successful update never ends with an empty title,
and the description can only end empty if it already was empty — so
neither field can be cleared through update. -/
theorem gallery_update_falsy_fields_unchanged
    (parseDate : String → Option Int) (img : GalleryRecord)
    (title description category date : Option String) (r : GalleryRecord)
    (h : updateGalleryImage parseDate img title description category date = .ok r) :
    ((title = none ∨ title = some "") → r.title = img.title)
    ∧ ((description = none ∨ description = some "") → r.description = img.description)
    ∧ ((category = none ∨ category = some "") → r.category = img.category)
    ∧ r.image = img.image
    ∧ (date = none → r.date = img.date)
    ∧ r.title ≠ ""
    ∧ (r.description = some "" → img.description = some "") := by
  rcases date with _ | s
  · simp only [updateGalleryImage] at h
    split at h
    · simp at h
    · next hgate =>
      have htitle : jsStringOr title img.title ≠ "" := fun heq => hgate (by simp [heq])
      injection h with h2
      subst h2
      exact ⟨fun hf => jsStringOr_falsy _ _ hf,
             fun hf => jsStringOrKeep_falsy _ _ hf,
             fun hf => jsStringOr_falsy _ _ hf,
             rfl, fun _ => rfl, htitle,
             fun he => jsStringOrKeep_empty _ _ he⟩
  · simp only [updateGalleryImage] at h
    by_cases hs : s == ""
    · simp only [hs, if_true] at h
      split at h
      · simp at h
      · next hgate =>
        have htitle : jsStringOr title img.title ≠ "" := fun heq => hgate (by simp [heq])
        injection h with h2
        subst h2
        exact ⟨fun hf => jsStringOr_falsy _ _ hf,
               fun hf => jsStringOrKeep_falsy _ _ hf,
               fun hf => jsStringOr_falsy _ _ hf,
               rfl, fun _ => rfl, htitle,
               fun he => jsStringOrKeep_empty _ _ he⟩
    · simp only [Bool.not_eq_true] at hs
      simp only [hs, Bool.false_eq_true, if_false] at h
      cases hp : parseDate s with
      | none => simp [hp] at h
      | some ts =>
        simp only [hp] at h
        split at h
        · simp at h
        · next hgate =>
          have htitle : jsStringOr title img.title ≠ "" := fun heq => hgate (by simp [heq])
          injection h with h2
          subst h2
          exact ⟨fun hf => jsStringOr_falsy _ _ hf,
                 fun hf => jsStringOrKeep_falsy _ _ hf,
                 fun hf => jsStringOr_falsy _ _ hf,
                 rfl, fun hd => Option.noConfusion hd, htitle,
                 fun he => jsStringOrKeep_empty _ _ he⟩

/-- Witness for C10: an update with an empty-string title, an absent
description and an absent category leaves all three and the image
unchanged. -/
theorem gallery_update_falsy_fields_unchanged_witness :
    galleryFixture.title = galleryFixture.title
    ∧ galleryFixture.description = galleryFixture.description
    ∧ galleryFixture.image = galleryFixture.image :=
  ⟨(gallery_update_falsy_fields_unchanged (fun _ => none) galleryFixture
      (some "") none none none galleryFixture (by rfl)).1 (Or.inr rfl),
   (gallery_update_falsy_fields_unchanged (fun _ => none) galleryFixture
      (some "") none none none galleryFixture (by rfl)).2.1 (Or.inl rfl),
   (gallery_update_falsy_fields_unchanged (fun _ => none) galleryFixture
      (some "") none none none galleryFixture (by rfl)).2.2.2.1⟩

/-- C4 counterexample: updating an existing notice to a date 30 days
and 1 ms past now succeeds with a 200 and persists that date —
`findByIdAndUpdate` is query middleware, so the schema's `pre('save')`
hook carrying the 30-day bound never runs on the update path. -/
theorem update_persists_far_date_cx :
    updateNotice (fun _ => some 2592000001) 0 "a1" "507f1f77bcf86cd799439011"
      (some "New title") (some "A fresh long description") (some "2099-01-01")
      none .resOk none false [noticeFixture] []
      = (⟨200, "Notice updated successfully"⟩,
         [{ noticeFixture with
              title := "New title",
              description := "A fresh long description",
              date := 2592000001,
              updatedBy := "a1",
              updatedAt := 0 }], [])
    ∧ (2592000001 : Int) > 0 + maxFutureMs := by
  constructor
  · rfl
  · decide

/-- C4 as amended: the bound is enforced on create only.  A create
whose parsed date exceeds now + 30 days never persists anything and
never answers 201 (the pre-save hook rejects inside `notice.save()`,
surfaced as the controller's 500), while an update of an existing
record persists whatever validated date the body carries — with no
30-day restriction on it. -/
theorem thirty_day_bound_enforced_only_on_create :
    (∀ (dateParse : String → Option Int) (now ts : Int) (adminId : String)
        (title description : Option String) (s : String) (file : Option FileUpload)
        (uploadResult : Option CloudUploadResult) (persistFails : Bool)
        (newId : String) (store : List NoticeRecord) (cloud : List String),
      dateParse s = some ts → ts > now + maxFutureMs →
      (createNotice dateParse now adminId title description (some s) file uploadResult
          persistFails newId store cloud).response.status ≠ 201
      ∧ (createNotice dateParse now adminId title description (some s) file uploadResult
          persistFails newId store cloud).store = store)
    ∧ (∀ (dateParse : String → Option Int) (now ts : Int) (adminId : String)
        (n : NoticeRecord) (t0 d0 s : String) (cloud : List String),
      castableObjectId n.id = true →
      validateNotice (fun x => (dateParse x).isSome) (some t0) (some d0) (some s) = [] →
      dateParse s = some ts →
      updateNotice dateParse now adminId n.id (some t0) (some d0) (some s) none
          .resOk none false [n] cloud
        = (⟨200, "Notice updated successfully"⟩,
           [{ n with
                title := jsTrim t0,
                description := jsTrim d0,
                date := ts,
                updatedBy := adminId,
                updatedAt := now }], cloud)) := by
  constructor
  · intro dateParse now ts adminId title description s file uploadResult persistFails
      newId store cloud hparse hbound
    by_cases hv : validateNotice (fun x => (dateParse x).isSome) title description (some s) = []
    · rcases title with _ | t0
      · constructor <;> simp [createNotice, hv]
      · rcases description with _ | d0
        · constructor <;> simp [createNotice, hv]
        · rcases file with _ | f
          · constructor <;> simp [createNotice, hv, hparse, saveNotice, hbound]
          · rcases uploadResult with _ | r
            · constructor <;> simp [createNotice, hv, hparse]
            · constructor <;> simp [createNotice, hv, hparse, saveNotice, hbound]
    · constructor <;> simp [createNotice, hv]
  · intro dateParse now ts adminId n t0 d0 s cloud hcast hval hparse
    have hfind : List.find? (fun r => r.id == n.id) [n] = some n := by simp
    simp [updateNotice, hcast, hval, hfind, hparse, mapById]

/-- Witness for C4 (amended): a create dated 30 days + 1 ms ahead is
refused and persists nothing, while the same date goes through on
update. -/
theorem thirty_day_bound_enforced_only_on_create_witness :
    ((createNotice (fun _ => some 2592000001) 0 "a1" (some "Sports Day")
        (some "Annual sports day notice") (some "2099-01-01") none none false
        "n1" [] []).response.status ≠ 201
      ∧ (createNotice (fun _ => some 2592000001) 0 "a1" (some "Sports Day")
        (some "Annual sports day notice") (some "2099-01-01") none none false
        "n1" [] []).store = [])
    ∧ updateNotice (fun _ => some 2592000001) 0 "a1" noticeFixture.id
        (some "New title") (some "A fresh long description") (some "2099-01-01")
        none .resOk none false [noticeFixture] []
        = (⟨200, "Notice updated successfully"⟩,
           [{ noticeFixture with
                title := jsTrim "New title",
                description := jsTrim "A fresh long description",
                date := 2592000001,
                updatedBy := "a1",
                updatedAt := 0 }], []) :=
  ⟨thirty_day_bound_enforced_only_on_create.1 (fun _ => some 2592000001) 0 2592000001
      "a1" (some "Sports Day") (some "Annual sports day notice") "2099-01-01"
      none none false "n1" [] [] rfl (by decide),
   thirty_day_bound_enforced_only_on_create.2 (fun _ => some 2592000001) 0 2592000001
      "a1" noticeFixture "New title" "A fresh long description" "2099-01-01" []
      (by decide) (by decide) rfl⟩
